import Mathlib

/-
Verification of the two-stage stream pipeline: the Stream Ingester
(collector/main.py) and the Content Processor (analyzer/main.py).

The Python code is shallowly embedded. Python strings are lists of
characters; JSON values carry the shapes json.loads can produce; each
fallible Python operation returns Except PyError so that an uncaught
Python exception appears as an .error result. External capabilities
(json.loads, the NLTK tokenizer, stopword list and lemmatizer, the VADER
compound scorer, the moderation wordlist resource) are parameters of the
embedded functions, since their code is not part of this repository.
-/

/-- Python strings, modelled as lists of characters (code points). -/
abbrev PyStr := List Char

/-- The character list of a Lean string literal; used to write concrete
Python string values. -/
def pyS (s : String) : PyStr := s.data

/-- Python str.lower, modelled per character with Char.toLower (ASCII
case folding, which covers every input used in this development). -/
def pyLower (s : PyStr) : PyStr := s.map Char.toLower

/-- Python str.strip: remove leading and trailing whitespace. -/
def pyStrip (s : PyStr) : PyStr :=
  ((s.dropWhile Char.isWhitespace).reverse.dropWhile Char.isWhitespace).reverse

/-- Python str.isalpha: nonempty and every character alphabetic. -/
def pyIsAlpha (s : PyStr) : Bool := !s.isEmpty && s.all Char.isAlpha

/-- Python substring test: needle in hay (for str operands). -/
def pyHasSub (hay needle : PyStr) : Bool :=
  hay.tails.any (fun t => needle.isPrefixOf t)

/-- JSON values, as produced by json.loads (numbers as rationals). -/
inductive JValue where
  | null : JValue
  | bool : Bool → JValue
  | num : ℚ → JValue
  | str : PyStr → JValue
  | arr : List JValue → JValue
  | obj : List (PyStr × JValue) → JValue

/-- The field list of a JSON object (a Python dict with string keys). -/
abbrev JObj := List (PyStr × JValue)

/-- Key lookup in a JSON object: Python dict indexing record[k]
(first binding wins; dicts from json.loads have unique keys). -/
def jLookup (fields : JObj) (k : PyStr) : Option JValue :=
  match fields with
  | [] => none
  | (k2, v) :: rest => if k2 = k then some v else jLookup rest k

/-- Python truthiness of a JSON value. -/
def pyTruthy : JValue → Bool
  | .null => false
  | .bool b => b
  | .num q => decide (q ≠ 0)
  | .str s => !s.isEmpty
  | .arr l => !l.isEmpty
  | .obj l => !l.isEmpty

/-- The Python exceptions that can escape the modelled code paths.
storeError stands for psycopg2.Error. -/
inductive PyError where
  | typeError : PyError
  | keyError : PyError
  | indexError : PyError
  | storeError : PyError
  | assertionError : PyError
deriving DecidableEq

/-- Python membership test, needle in container, for a string needle:
key membership for dicts, element equality for lists, substring for
strings; TypeError for null, booleans and numbers, as in CPython. -/
def pyIn (needle : PyStr) : JValue → Except PyError Bool
  | .str s => .ok (pyHasSub s needle)
  | .arr l => .ok (l.any (fun v => match v with
      | .str s => decide (s = needle)
      | _ => false))
  | .obj fs => .ok ((jLookup fs needle).isSome)
  | _ => .error .typeError

/-- Python subscript container[key] for a string key: dict lookup
(KeyError when absent); TypeError on anything that is not a dict. -/
def pySubscriptKey (v : JValue) (k : PyStr) : Except PyError JValue :=
  match v with
  | .obj fs =>
    match jLookup fs k with
    | some x => .ok x
    | none => .error .keyError
  | _ => .error .typeError

/-- Python subscript container[0]: first element of a list, first
character of a string (IndexError when empty), KeyError for a dict
produced by json.loads (its keys are strings, never 0), TypeError
otherwise. -/
def pySubscriptZero : JValue → Except PyError JValue
  | .arr (x :: _) => .ok x
  | .arr [] => .error .indexError
  | .str (c :: _) => .ok (.str [c])
  | .str [] => .error .indexError
  | .obj _ => .error .keyError
  | _ => .error .typeError

/- ===== Content Processor (analyzer/main.py) ===== -/

/-- A row of the posts table: content, sentiment, created_at, source as
inserted by the Processor, plus the store-assigned inserted_at,
in seconds. -/
structure PostRow where
  content : PyStr
  sentiment : PyStr
  created_at : JValue
  source : JValue
  inserted_at : Nat

/-- The relational store together with its environment: the persisted
rows, the current store clock NOW() in seconds, and whether the next
SELECT (failQuery) or the next INSERT/commit (failInsert) raises
psycopg2.Error. -/
structure DB where
  rows : List PostRow
  now : Nat
  failQuery : Bool
  failInsert : Bool

/-- The dedup window: INTERVAL 24 hours, in seconds. -/
def DEDUP_WINDOW : Nat := 86400

/-- check_if_text_exists: SELECT EXISTS(SELECT 1 FROM posts WHERE
content = text AND inserted_at > NOW() - INTERVAL 24 hours). The SQL
comparison inserted_at > now - 24h is written now < inserted_at + 24h
to avoid truncated natural subtraction. A store failure raises
psycopg2.Error, which this function does not catch. -/
def check_if_text_exists (db : DB) (text : PyStr) : Except PyError Bool :=
  if db.failQuery then .error .storeError
  else .ok (db.rows.any (fun r =>
    decide (r.content = text) && decide (db.now < r.inserted_at + DEDUP_WINDOW)))

/-- The compiled moderation pattern applied to a string: re.search of
the IGNORECASE alternation of the wordlist terms, which (for the plain
words the wordlist holds) matches iff some term occurs in the text,
case-insensitively. The wordlist resource file is not under the sources,
so the term list is a parameter. -/
def hasBadWord (badWords : List PyStr) (s : PyStr) : Bool :=
  badWords.any (fun w => pyHasSub (pyLower s) (pyLower w))

/-- check_for_bad_words: bool(re.search(pattern, text)). re.search
raises TypeError when its subject is not a string. -/
def check_for_bad_words (badWords : List PyStr) (text : JValue) :
    Except PyError Bool :=
  match text with
  | .str s => .ok (hasBadWord badWords s)
  | _ => .error .typeError

/-- preprocess_text: strip and lower-case, tokenize, drop tokens that
are stopwords or not purely alphabetic, lemmatize, rejoin with single
spaces. word_tokenize, the stopword list and the WordNet lemmatizer are
external NLTK resources, passed as the parameters tokenize, isStop and
lemmatize. -/
def preprocess_text (tokenize : PyStr → List PyStr) (isStop : PyStr → Bool)
    (lemmatize : PyStr → PyStr) (text : PyStr) : PyStr :=
  let t := pyLower (pyStrip text)
  let tokens := tokenize t
  let kept := tokens.filter (fun tok => !isStop tok && pyIsAlpha tok)
  let lemmas := kept.map lemmatize
  List.intercalate (pyS " ") lemmas

/-- SENTIMENT_THRESHOLD = 0.40. -/
def SENTIMENT_THRESHOLD : ℚ := 40 / 100

/-- SENTIMENT_POSITIVE. -/
def SENTIMENT_POSITIVE : PyStr := pyS "positive"

/-- SENTIMENT_NEUTRAL. -/
def SENTIMENT_NEUTRAL : PyStr := pyS "neutral"

/-- SENTIMENT_NEGATIVE. -/
def SENTIMENT_NEGATIVE : PyStr := pyS "negative"

/-- analyze_sentiment: threshold the VADER compound score. The scorer
is an external lexicon capability, passed as the parameter polarity. -/
def analyze_sentiment (polarity : PyStr → ℚ) (text : PyStr) : PyStr :=
  let score := polarity text
  if score ≥ SENTIMENT_THRESHOLD then SENTIMENT_POSITIVE
  else if score ≤ -SENTIMENT_THRESHOLD then SENTIMENT_NEGATIVE
  else SENTIMENT_NEUTRAL

/-- process_queue_message: the per-message pipeline of the Content
Processor. jsonLoads is json.loads (its .error case is
json.JSONDecodeError, which the code catches). The result is .ok of the
new store state on a normal return, and .error e when the Python
exception e escapes the function: a TypeError from
check_for_bad_words on a non-string text value, or a psycopg2.Error
raised inside check_if_text_exists, neither of which the code catches.
The psycopg2.Error of the INSERT/commit is caught: rollback, so the
rows are unchanged. -/
def process_queue_message
    (jsonLoads : PyStr → Except Unit JValue)
    (badWords : List PyStr)
    (tokenize : PyStr → List PyStr) (isStop : PyStr → Bool)
    (lemmatize : PyStr → PyStr)
    (polarity : PyStr → ℚ)
    (db : DB) (message : PyStr) : Except PyError DB :=
  let stripped := pyStrip message
  if stripped.isEmpty then .ok db
  else
    match jsonLoads stripped with
    | .error _ => .ok db
    | .ok record =>
      match record with
      | .obj fields =>
        match jLookup fields (pyS "text"), jLookup fields (pyS "createdAt"),
            jLookup fields (pyS "source") with
        | some text, some createdAt, some source =>
          match text with
          | .str rawText =>
            if hasBadWord badWords rawText then .ok db
            else
              let preprocessed :=
                preprocess_text tokenize isStop lemmatize rawText
              let sentiment := analyze_sentiment polarity preprocessed
              match check_if_text_exists db preprocessed with
              | .error e => .error e
              | .ok true => .ok db
              | .ok false =>
                if db.failInsert then .ok db
                else .ok { db with rows := db.rows ++
                    [⟨rawText, sentiment, createdAt, source, db.now⟩] }
          | _ => .error .typeError
        | _, _, _ => .ok db
      | _ => .ok db

/- ===== Stream Ingester (collector/main.py) ===== -/

/-- VANCOUVER_FILTER_TERMS. -/
def VANCOUVER_FILTER_TERMS : List PyStr :=
  [pyS "vancouver", pyS "yvr", pyS "vancity", pyS "vancouverbc"]

/-- parse_and_filter_record: JSON-parse a stream frame and accept only
records at commit.record whose $type is app.bsky.feed.post.
json.JSONDecodeError and every filtered-out shape yield None (.ok none);
.error is a Python exception escaping the function (possible for
non-container frames). The final assert isinstance(record, dict) is
the assertionError case; it is unreachable, because every shape that
survives record[$type] == "app.bsky.feed.post" is a dict. -/
def parse_and_filter_record (jsonLoads : PyStr → Except Unit JValue)
    (message : PyStr) : Except PyError (Option JObj) :=
  match jsonLoads message with
  | .error _ => .ok none
  | .ok data =>
    match pyIn (pyS "commit") data with
    | .error e => .error e
    | .ok false => .ok none
    | .ok true =>
      match pySubscriptKey data (pyS "commit") with
      | .error e => .error e
      | .ok commit =>
        match pyIn (pyS "record") commit with
        | .error e => .error e
        | .ok false => .ok none
        | .ok true =>
          match pySubscriptKey commit (pyS "record") with
          | .error e => .error e
          | .ok record =>
            match pyIn (pyS "$type") record with
            | .error e => .error e
            | .ok false => .ok none
            | .ok true =>
              match pySubscriptKey record (pyS "$type") with
              | .error e => .error e
              | .ok t =>
                match t with
                | .str s =>
                  if s = pyS "app.bsky.feed.post" then
                    match record with
                    | .obj fs => .ok (some fs)
                    | _ => .error .assertionError
                  else .ok none
                | _ => .ok none

/-- The text half of filter_record_by_content: require a string text
field whose lower-cased value contains one of the Vancouver keywords
(case-insensitive substring over the ordered term list). -/
def filter_record_by_text (record : JObj) : Option JObj :=
  match jLookup record (pyS "text") with
  | some (.str s) =>
    if VANCOUVER_FILTER_TERMS.any (fun term => pyHasSub (pyLower s) term)
    then some record else none
  | _ => none

/-- filter_record_by_content: the language filter (drop when langs is
present, truthy, and its first entry does not contain "en"), followed
by the keyword filter on the text (filter_record_by_text). -/
def filter_record_by_content (record : JObj) :
    Except PyError (Option JObj) :=
  match jLookup record (pyS "langs") with
  | some langs =>
    if pyTruthy langs then
      match pySubscriptZero langs with
      | .error e => .error e
      | .ok first =>
        match pyIn (pyS "en") first with
        | .error e => .error e
        | .ok hasEn =>
          if !hasEn then .ok none
          else .ok (filter_record_by_text record)
    else .ok (filter_record_by_text record)
  | none => .ok (filter_record_by_text record)

/-- transform_record_to_message: build the CanonicalMessage dict
(source "bluesky", the original-case text, the createdAt of the
record); json.dumps of this value is the published body, so the
message is modelled as the JSON object itself. record[createdAt]
raises KeyError when the key is absent. -/
def transform_record_to_message (record : JObj) : Except PyError JObj :=
  match jLookup record (pyS "text"), jLookup record (pyS "createdAt") with
  | some text, some createdAt =>
    .ok [(pyS "source", .str (pyS "bluesky")),
         (pyS "text", text),
         (pyS "createdAt", createdAt)]
  | none, _ => .error .keyError
  | some _, none => .error .keyError

/-- process_websocket_event: per-frame processing of the Ingester.
connected is the state of the RabbitMQ channel: when the connection is
lost, basic_publish raises pika.exceptions.StreamLostError, which the
code catches, returning False and dropping the in-flight message. The
result carries the success flag and the list of messages published to
the queue during the call. -/
def process_websocket_event (jsonLoads : PyStr → Except Unit JValue)
    (connected : Bool) (message : PyStr) :
    Except PyError (Bool × List JObj) :=
  match parse_and_filter_record jsonLoads message with
  | .error e => .error e
  | .ok none => .ok (true, [])
  | .ok (some record) =>
    match filter_record_by_content record with
    | .error e => .error e
    | .ok none => .ok (true, [])
    | .ok (some filtered) =>
      match transform_record_to_message filtered with
      | .error e => .error e
      | .ok msg =>
        if connected then .ok (true, [msg]) else .ok (false, [])

/-- One iteration of the while-True read loop in the collector main:
process the received frame; when processing reports failure, call
setup_queue again, which yields a connected channel. The result is the
channel state for the next iteration; .error e is an exception ending
the loop. -/
def collector_loop_iteration (jsonLoads : PyStr → Except Unit JValue)
    (connected : Bool) (message : PyStr) : Except PyError Bool :=
  match process_websocket_event jsonLoads connected message with
  | .error e => .error e
  | .ok (success, _) => .ok (if success then connected else true)

/- ===== Concrete stand-ins for the external capabilities =====
These instantiate the capability parameters in closed theorems. Each is
documented with the inputs on which it agrees with the real library. -/

/-- Concrete tokenizer instantiating NLTK word_tokenize in closed
theorems: split on spaces, keeping the nonempty tokens that are already
lower-case. It agrees with word_tokenize on the punctuation-free,
space-separated inputs used below, and satisfies the re-tokenization
stability assumptions of the idempotence theorem. -/
def tokC (s : PyStr) : List PyStr :=
  (List.splitOn ' ' s).filter (fun t => !t.isEmpty && decide (pyLower t = t))

/-- Concrete stopword predicate instantiating the NLTK English stopword
list: the sub-list met by the concrete inputs below ("this", "is", "a"
are NLTK English stopwords; no other word appearing below is one). -/
def stopC (t : PyStr) : Bool :=
  decide (t = pyS "this") || decide (t = pyS "is") || decide (t = pyS "a")

/-- Concrete lemmatizer instantiating WordNetLemmatizer.lemmatize: the
identity, which agrees with the lemmatizer on every token used below
(each is its own WordNet lemma). -/
def lemC (t : PyStr) : PyStr := t

/-- Concrete compound scorer instantiating the VADER polarity parameter:
constantly 0, which agrees with VADER on the normalized inputs used
below (no token of theirs carries lexicon valence, and empty text
scores 0.0). -/
def polC (_ : PyStr) : ℚ := 0

/-- json.loads restricted to one concrete body: returns the stated
parse on every input; each use applies it only to the one body whose
json.loads value it is. -/
def constLoads (v : JValue) : PyStr → Except Unit JValue := fun _ => .ok v

/-- An empty store with clock 0 and no injected store faults. -/
def db0 : DB := ⟨[], 0, false, false⟩

/- ===== C4: sentiment thresholds ===== -/

/-- C4: sentiment classification is exact and inclusive at the
boundaries: analyze_sentiment returns positive iff the compound score
is at least 0.40, negative iff it is at most minus 0.40, neutral
otherwise; and when the scorer gives the empty text score 0 (as VADER
does), the empty text is classified neutral. -/
theorem C4_sentiment_threshold_exact (polarity : PyStr → ℚ) (s : PyStr) :
    (analyze_sentiment polarity s = SENTIMENT_POSITIVE ↔
      polarity s ≥ SENTIMENT_THRESHOLD) ∧
    (analyze_sentiment polarity s = SENTIMENT_NEGATIVE ↔
      polarity s ≤ -SENTIMENT_THRESHOLD) ∧
    (analyze_sentiment polarity s = SENTIMENT_NEUTRAL ↔
      (-SENTIMENT_THRESHOLD < polarity s ∧
        polarity s < SENTIMENT_THRESHOLD)) ∧
    (polarity (pyS "") = 0 →
      analyze_sentiment polarity (pyS "") = SENTIMENT_NEUTRAL) := by
  have hTpos : (0 : ℚ) < SENTIMENT_THRESHOLD := by
    norm_num [SENTIMENT_THRESHOLD]
  refine ⟨?_, ?_, ?_, ?_⟩
  · simp only [analyze_sentiment]
    split_ifs with h1 h2
    · simp [h1]
    · constructor
      · intro h; exact absurd h (by decide)
      · intro h; exact absurd h h1
    · constructor
      · intro h; exact absurd h (by decide)
      · intro h; exact absurd h h1
  · simp only [analyze_sentiment]
    split_ifs with h1 h2
    · constructor
      · intro h; exact absurd h (by decide)
      · intro h
        have : polarity s ≥ SENTIMENT_THRESHOLD := h1
        linarith
    · simp [h2]
    · constructor
      · intro h; exact absurd h (by decide)
      · intro h; exact absurd h h2
  · simp only [analyze_sentiment]
    split_ifs with h1 h2
    · constructor
      · intro h; exact absurd h (by decide)
      · intro h
        have : polarity s ≥ SENTIMENT_THRESHOLD := h1
        linarith [h.2]
    · constructor
      · intro h; exact absurd h (by decide)
      · intro h
        linarith [h.1]
    · push_neg at h1 h2
      simp only [true_iff, iff_true]
      exact ⟨by linarith, by linarith⟩
  · intro h
    simp only [analyze_sentiment, h]
    rw [if_neg (by norm_num [SENTIMENT_THRESHOLD]),
        if_neg (by norm_num [SENTIMENT_THRESHOLD])]

/-- Concrete scorer exercising both boundary values and both nearby
values of the thresholds. -/
def polC4 (s : PyStr) : ℚ :=
  if s = pyS "boundary pos" then 40 / 100
  else if s = pyS "near pos" then 399999 / 1000000
  else if s = pyS "boundary neg" then -(40 / 100)
  else if s = pyS "near neg" then -(399999 / 1000000)
  else 0

/-- C4 witness: the boundary scores 0.40 and minus 0.40 classify as
positive and negative, the nearby scores 0.399999 and minus 0.399999 as
neutral, and the empty text as neutral. -/
theorem C4_sentiment_threshold_exact_witness :
    analyze_sentiment polC4 (pyS "boundary pos") = SENTIMENT_POSITIVE ∧
    analyze_sentiment polC4 (pyS "near pos") = SENTIMENT_NEUTRAL ∧
    analyze_sentiment polC4 (pyS "boundary neg") = SENTIMENT_NEGATIVE ∧
    analyze_sentiment polC4 (pyS "near neg") = SENTIMENT_NEUTRAL ∧
    analyze_sentiment polC4 (pyS "") = SENTIMENT_NEUTRAL := by
  have h1 : polC4 (pyS "boundary pos") = 40 / 100 := by
    unfold polC4; rw [if_pos rfl]
  have h2 : polC4 (pyS "near pos") = 399999 / 1000000 := by
    unfold polC4; rw [if_neg (by decide), if_pos rfl]
  have h3 : polC4 (pyS "boundary neg") = -(40 / 100) := by
    unfold polC4; rw [if_neg (by decide), if_neg (by decide), if_pos rfl]
  have h4 : polC4 (pyS "near neg") = -(399999 / 1000000) := by
    unfold polC4
    rw [if_neg (by decide), if_neg (by decide), if_neg (by decide),
      if_pos rfl]
  have h5 : polC4 (pyS "") = 0 := by
    unfold polC4
    rw [if_neg (by decide), if_neg (by decide), if_neg (by decide),
      if_neg (by decide)]
  refine ⟨?_, ?_, ?_, ?_, ?_⟩
  · exact (C4_sentiment_threshold_exact polC4 _).1.mpr
      (by rw [h1]; norm_num [SENTIMENT_THRESHOLD])
  · exact (C4_sentiment_threshold_exact polC4 _).2.2.1.mpr
      (by rw [h2]; constructor <;> norm_num [SENTIMENT_THRESHOLD])
  · exact (C4_sentiment_threshold_exact polC4 _).2.1.mpr
      (by rw [h3]; norm_num [SENTIMENT_THRESHOLD])
  · exact (C4_sentiment_threshold_exact polC4 _).2.2.1.mpr
      (by rw [h4]; constructor <;> norm_num [SENTIMENT_THRESHOLD])
  · exact (C4_sentiment_threshold_exact polC4 (pyS "")).2.2.2 h5

/- ===== C3: moderation rejection never persists ===== -/

/-- C3: a message whose raw text contains any disallow-list term as a
case-insensitive substring is dropped by the Processor with no insert:
process_queue_message returns normally with the store unchanged. -/
theorem C3_moderation_never_persists
    (jsonLoads : PyStr → Except Unit JValue) (badWords : List PyStr)
    (tokenize : PyStr → List PyStr) (isStop : PyStr → Bool)
    (lemmatize : PyStr → PyStr) (polarity : PyStr → ℚ)
    (db : DB) (message : PyStr) (fields : JObj) (s term : PyStr)
    (hparse : jsonLoads (pyStrip message) = .ok (.obj fields))
    (htext : jLookup fields (pyS "text") = some (.str s))
    (hterm : term ∈ badWords)
    (hsub : pyHasSub (pyLower s) (pyLower term) = true) :
    process_queue_message jsonLoads badWords tokenize isStop lemmatize
      polarity db message = .ok db := by
  have hbad : hasBadWord badWords s = true :=
    List.any_eq_true.mpr ⟨term, hterm, hsub⟩
  by_cases he : (pyStrip message).isEmpty
  · simp [process_queue_message, he]
  · rcases hc : jLookup fields (pyS "createdAt") with _ | c
    · simp [process_queue_message, he, hparse, htext, hc]
    · rcases hsrc : jLookup fields (pyS "source") with _ | src
      · simp [process_queue_message, he, hparse, htext, hc, hsrc]
      · simp [process_queue_message, he, hparse, htext, hc, hsrc, hbad]

/-- The moderation scenario body from the spec. -/
def bodyC3 : PyStr := pyS
  "\x7b\"text\": \"This phrase has a bad word: porn.\", \"createdAt\": \"2023-10-01T12:00:00Z\", \"source\": \"bluesky\"\x7d"

/-- json.loads value of bodyC3. -/
def fieldsC3 : JObj :=
  [(pyS "text", .str (pyS "This phrase has a bad word: porn.")),
   (pyS "createdAt", .str (pyS "2023-10-01T12:00:00Z")),
   (pyS "source", .str (pyS "bluesky"))]

/-- The moderation term exercised by the witness. -/
def badWordsC : List PyStr := [pyS "porn"]

/-- C3 witness: the spec scenario; the body whose text contains "porn"
is dropped with the store unchanged. -/
theorem C3_moderation_never_persists_witness :
    process_queue_message (constLoads (.obj fieldsC3)) badWordsC tokC stopC
      lemC polC db0 bodyC3 = .ok db0 :=
  C3_moderation_never_persists (constLoads (.obj fieldsC3)) badWordsC tokC
    stopC lemC polC db0 bodyC3 fieldsC3
    (pyS "This phrase has a bad word: porn.") (pyS "porn")
    rfl rfl (by decide) (by decide)

/- ===== C6: the language filter ===== -/

/-- C6: the language filter drops exactly when langs is present, truthy
(non-empty), and its first entry does not contain "en"; when the first
entry contains "en", when langs is absent, or when langs is present but
falsy, control reaches the keyword filter; and a record without langs
whose text matches a keyword is accepted. -/
theorem C6_language_filter_exact (record : JObj) :
    (∀ langs first, jLookup record (pyS "langs") = some langs →
      pyTruthy langs = true → pySubscriptZero langs = .ok first →
      pyIn (pyS "en") first = .ok false →
      filter_record_by_content record = .ok none) ∧
    (∀ langs first, jLookup record (pyS "langs") = some langs →
      pyTruthy langs = true → pySubscriptZero langs = .ok first →
      pyIn (pyS "en") first = .ok true →
      filter_record_by_content record = .ok (filter_record_by_text record)) ∧
    (∀ langs, jLookup record (pyS "langs") = some langs →
      pyTruthy langs = false →
      filter_record_by_content record = .ok (filter_record_by_text record)) ∧
    (jLookup record (pyS "langs") = none →
      filter_record_by_content record = .ok (filter_record_by_text record)) ∧
    (∀ s, jLookup record (pyS "langs") = none →
      jLookup record (pyS "text") = some (.str s) →
      (∃ term ∈ VANCOUVER_FILTER_TERMS, pyHasSub (pyLower s) term = true) →
      filter_record_by_content record = .ok (some record)) := by
  refine ⟨?_, ?_, ?_, ?_, ?_⟩
  · intro langs first hl ht h0 hen
    simp [filter_record_by_content, hl, ht, h0, hen]
  · intro langs first hl ht h0 hen
    simp [filter_record_by_content, hl, ht, h0, hen]
  · intro langs hl ht
    simp [filter_record_by_content, hl, ht]
  · intro hl
    simp [filter_record_by_content, hl]
  · intro s hl htext hterm
    have hany : VANCOUVER_FILTER_TERMS.any
        (fun term => pyHasSub (pyLower s) term) = true :=
      List.any_eq_true.mpr hterm
    simp [filter_record_by_content, hl, filter_record_by_text, htext, hany]

/-- A record with langs = ["es"] and keyword-matching text. -/
def recordEs : JObj :=
  [(pyS "langs", .arr [.str (pyS "es")]),
   (pyS "text", .str (pyS "Vancouver is great!"))]

/-- A record with no langs field and keyword-matching text. -/
def recordNoLangs : JObj := [(pyS "text", .str (pyS "I love Vancouver"))]

/-- C6 witness: the langs = ["es"] record is dropped even though its
text matches a keyword, and the record without langs and with a keyword
match is accepted. -/
theorem C6_language_filter_exact_witness :
    filter_record_by_content recordEs = .ok none ∧
    filter_record_by_content recordNoLangs = .ok (some recordNoLangs) :=
  ⟨(C6_language_filter_exact recordEs).1 (.arr [.str (pyS "es")])
      (.str (pyS "es")) rfl rfl rfl rfl,
   (C6_language_filter_exact recordNoLangs).2.2.2.2
      (pyS "I love Vancouver") rfl rfl
      ⟨pyS "vancouver", by decide, by decide⟩⟩

/- ===== C7: per-frame transform and publish ===== -/

/-- C7: per inbound frame the Ingester publishes zero or one message;
a frame of the target record kind with no langs field, a string text
whose lower-casing contains a configured keyword, and a createdAt, is
published as exactly the CanonicalMessage with source "bluesky", the
original-case text, and the createdAt of the record; and the same frame
shape with no keyword occurrence publishes nothing. -/
theorem C7_ingester_publish_exact :
    (∀ (jsonLoads : PyStr → Except Unit JValue) (connected : Bool)
        (message : PyStr) (success : Bool) (pubs : List JObj),
      process_websocket_event jsonLoads connected message =
        .ok (success, pubs) → pubs.length ≤ 1) ∧
    (∀ (jsonLoads : PyStr → Except Unit JValue) (message : PyStr)
        (data cf fields : JObj) (s : PyStr) (c : JValue),
      jsonLoads message = .ok (.obj data) →
      jLookup data (pyS "commit") = some (.obj cf) →
      jLookup cf (pyS "record") = some (.obj fields) →
      jLookup fields (pyS "$type") = some (.str (pyS "app.bsky.feed.post")) →
      jLookup fields (pyS "langs") = none →
      jLookup fields (pyS "text") = some (.str s) →
      (∃ term ∈ VANCOUVER_FILTER_TERMS, pyHasSub (pyLower s) term = true) →
      jLookup fields (pyS "createdAt") = some c →
      process_websocket_event jsonLoads true message =
        .ok (true, [[(pyS "source", .str (pyS "bluesky")),
                     (pyS "text", .str s), (pyS "createdAt", c)]])) ∧
    (∀ (jsonLoads : PyStr → Except Unit JValue) (message : PyStr)
        (data cf fields : JObj) (s : PyStr),
      jsonLoads message = .ok (.obj data) →
      jLookup data (pyS "commit") = some (.obj cf) →
      jLookup cf (pyS "record") = some (.obj fields) →
      jLookup fields (pyS "$type") = some (.str (pyS "app.bsky.feed.post")) →
      jLookup fields (pyS "langs") = none →
      jLookup fields (pyS "text") = some (.str s) →
      (∀ term ∈ VANCOUVER_FILTER_TERMS, pyHasSub (pyLower s) term = false) →
      process_websocket_event jsonLoads true message = .ok (true, [])) := by
  refine ⟨?_, ?_, ?_⟩
  · intro jsonLoads connected message success pubs h
    unfold process_websocket_event at h
    split at h
    · simp at h
    · injection h with h1
      injection h1 with ha hb
      subst hb
      simp
    · split at h
      · simp at h
      · injection h with h1
        injection h1 with ha hb
        subst hb
        simp
      · split at h
        · simp at h
        · split at h
          · injection h with h1
            injection h1 with ha hb
            subst hb
            simp
          · injection h with h1
            injection h1 with ha hb
            subst hb
            simp
  · intro jsonLoads message data cf fields s c h1 h2 h3 h4 h5 h6 hterm h8
    have hany : VANCOUVER_FILTER_TERMS.any
        (fun term => pyHasSub (pyLower s) term) = true :=
      List.any_eq_true.mpr hterm
    simp [process_websocket_event, parse_and_filter_record, pyIn,
      pySubscriptKey, h1, h2, h3, h4, filter_record_by_content, h5,
      filter_record_by_text, h6, hany, transform_record_to_message, h8]
  · intro jsonLoads message data cf fields s h1 h2 h3 h4 h5 h6 hterm
    have hany : VANCOUVER_FILTER_TERMS.any
        (fun term => pyHasSub (pyLower s) term) = false :=
      List.any_eq_false.mpr (fun t ht => by simp [hterm t ht])
    simp [process_websocket_event, parse_and_filter_record, pyIn,
      pySubscriptKey, h1, h2, h3, h4, filter_record_by_content, h5,
      filter_record_by_text, h6, hany]

/-- The record of the literal end-to-end scenario 1. -/
def fieldsC7 : JObj :=
  [(pyS "$type", .str (pyS "app.bsky.feed.post")),
   (pyS "text", .str (pyS "Vancouver is great!")),
   (pyS "createdAt", .str (pyS "2023-10-01T12:00:00Z"))]

/-- json.loads value of the scenario 1 frame. -/
def dataC7 : JObj := [(pyS "commit", .obj [(pyS "record", .obj fieldsC7)])]

/-- The scenario 1 frame body. -/
def bodyC7 : PyStr := pyS
  "\x7b\"commit\": \x7b\"record\": \x7b\"$type\": \"app.bsky.feed.post\", \"text\": \"Vancouver is great!\", \"createdAt\": \"2023-10-01T12:00:00Z\"\x7d\x7d\x7d"

/-- The record of the literal end-to-end scenario 2 (text without any
configured keyword). -/
def fieldsC7b : JObj :=
  [(pyS "$type", .str (pyS "app.bsky.feed.post")),
   (pyS "text", .str (pyS "I love Van")),
   (pyS "createdAt", .str (pyS "2023-10-01T12:00:00Z"))]

/-- json.loads value of the scenario 2 frame. -/
def dataC7b : JObj := [(pyS "commit", .obj [(pyS "record", .obj fieldsC7b)])]

/-- The scenario 2 frame body. -/
def bodyC7b : PyStr := pyS
  "\x7b\"commit\": \x7b\"record\": \x7b\"$type\": \"app.bsky.feed.post\", \"text\": \"I love Van\", \"createdAt\": \"2023-10-01T12:00:00Z\"\x7d\x7d\x7d"

/-- C7 witness: the scenario 1 frame publishes exactly the canonical
message with source "bluesky", and the scenario 2 frame publishes
nothing. -/
theorem C7_ingester_publish_exact_witness :
    process_websocket_event (constLoads (.obj dataC7)) true bodyC7 =
      .ok (true, [[(pyS "source", .str (pyS "bluesky")),
                   (pyS "text", .str (pyS "Vancouver is great!")),
                   (pyS "createdAt", .str (pyS "2023-10-01T12:00:00Z"))]]) ∧
    process_websocket_event (constLoads (.obj dataC7b)) true bodyC7b =
      .ok (true, []) :=
  ⟨C7_ingester_publish_exact.2.1 (constLoads (.obj dataC7)) bodyC7 dataC7
      [(pyS "record", .obj fieldsC7)] fieldsC7
      (pyS "Vancouver is great!") (.str (pyS "2023-10-01T12:00:00Z"))
      rfl rfl rfl rfl rfl rfl ⟨pyS "vancouver", by decide, by decide⟩ rfl,
   C7_ingester_publish_exact.2.2 (constLoads (.obj dataC7b)) bodyC7b dataC7b
      [(pyS "record", .obj fieldsC7b)] fieldsC7b (pyS "I love Van")
      rfl rfl rfl rfl rfl rfl (by decide)⟩

/- ===== C8: publish failure is handled locally ===== -/

/-- C8: when the queue connection is lost, a frame that reaches the
publish step makes process_websocket_event return False without
raising and publish nothing (the in-flight event is dropped, not
buffered), and the main read loop re-establishes the queue channel and
continues. -/
theorem C8_publish_failure_recovery
    (jsonLoads : PyStr → Except Unit JValue) (message : PyStr)
    (record filtered msg : JObj)
    (hpf : parse_and_filter_record jsonLoads message = .ok (some record))
    (hfc : filter_record_by_content record = .ok (some filtered))
    (htr : transform_record_to_message filtered = .ok msg) :
    process_websocket_event jsonLoads false message = .ok (false, []) ∧
    collector_loop_iteration jsonLoads false message = .ok true := by
  have h1 : process_websocket_event jsonLoads false message =
      .ok (false, []) := by
    simp [process_websocket_event, hpf, hfc, htr]
  exact ⟨h1, by simp [collector_loop_iteration, h1]⟩

/-- C8 witness: the scenario 1 frame on a lost connection: returns
False with no publish and no exception, and the next loop iteration
runs on a freshly connected channel. -/
theorem C8_publish_failure_recovery_witness :
    process_websocket_event (constLoads (.obj dataC7)) false bodyC7 =
      .ok (false, []) ∧
    collector_loop_iteration (constLoads (.obj dataC7)) false bodyC7 =
      .ok true :=
  C8_publish_failure_recovery (constLoads (.obj dataC7)) bodyC7
    fieldsC7 fieldsC7
    [(pyS "source", .str (pyS "bluesky")),
     (pyS "text", .str (pyS "Vancouver is great!")),
     (pyS "createdAt", .str (pyS "2023-10-01T12:00:00Z"))]
    rfl rfl rfl

/- ===== C1: the dedup invariant against the code ===== -/

/-- The constant-zero scorer classifies every text neutral. -/
theorem polC_neutral (s : PyStr) :
    analyze_sentiment polC s = SENTIMENT_NEUTRAL := by
  simp only [analyze_sentiment, polC]
  rw [if_neg (by norm_num [SENTIMENT_THRESHOLD]),
      if_neg (by norm_num [SENTIMENT_THRESHOLD])]

/-- The body of end-to-end scenario 4, used twice, 60 seconds apart. -/
def bodyC1 : PyStr := pyS
  "\x7b\"text\": \"This is a test post\", \"createdAt\": \"2023-10-01T12:00:00Z\", \"source\": \"bluesky\"\x7d"

/-- json.loads value of bodyC1. -/
def fieldsC1 : JObj :=
  [(pyS "text", .str (pyS "This is a test post")),
   (pyS "createdAt", .str (pyS "2023-10-01T12:00:00Z")),
   (pyS "source", .str (pyS "bluesky"))]

/-- The row the Processor inserts for bodyC1 at store time t: the raw
text as content. -/
def rowC1 (t : Nat) : PostRow :=
  ⟨pyS "This is a test post",
   analyze_sentiment polC
     (preprocess_text tokC stopC lemC (pyS "This is a test post")),
   .str (pyS "2023-10-01T12:00:00Z"), .str (pyS "bluesky"), t⟩

/-- C1: evaluating the Processor on the failing input: the same message
processed twice, 60 seconds apart, is persisted twice. The dedup check
of the second run queries content = "test post" (the normalized text),
but the first run stored the raw text "This is a test post", so the
duplicate is not found; both rows share the same normalized content
with inserted_at values 60 seconds apart, violating the invariant the
claim states. -/
theorem C1_dedup_gate_misses_duplicate :
    preprocess_text tokC stopC lemC (pyS "This is a test post") =
      pyS "test post" ∧
    pyS "This is a test post" ≠ pyS "test post" ∧
    process_queue_message (constLoads (.obj fieldsC1)) badWordsC tokC stopC
      lemC polC db0 bodyC1 = .ok ⟨[rowC1 0], 0, false, false⟩ ∧
    process_queue_message (constLoads (.obj fieldsC1)) badWordsC tokC stopC
      lemC polC ⟨[rowC1 0], 60, false, false⟩ bodyC1 =
      .ok ⟨[rowC1 0, rowC1 60], 60, false, false⟩ ∧
    [rowC1 0, rowC1 60].map
      (fun r => preprocess_text tokC stopC lemC r.content) =
      [pyS "test post", pyS "test post"] ∧
    [rowC1 0, rowC1 60].map PostRow.inserted_at = [0, 60] ∧
    60 - 0 < DEDUP_WINDOW :=
  ⟨rfl, by decide, rfl, rfl, rfl, rfl, by decide⟩

/- ===== C10: messages normalizing to the empty string ===== -/

/-- A message whose text has no alphabetic token. -/
def bodyC10a : PyStr := pyS
  "\x7b\"text\": \"123\", \"createdAt\": \"2023-10-01T12:00:00Z\", \"source\": \"bluesky\"\x7d"

/-- json.loads value of bodyC10a. -/
def fieldsC10a : JObj :=
  [(pyS "text", .str (pyS "123")),
   (pyS "createdAt", .str (pyS "2023-10-01T12:00:00Z")),
   (pyS "source", .str (pyS "bluesky"))]

/-- A second message with no alphabetic token, same normalized
(empty) content, delivered 60 seconds later. -/
def bodyC10b : PyStr := pyS
  "\x7b\"text\": \"456\", \"createdAt\": \"2023-10-01T12:00:00Z\", \"source\": \"bluesky\"\x7d"

/-- json.loads value of bodyC10b. -/
def fieldsC10b : JObj :=
  [(pyS "text", .str (pyS "456")),
   (pyS "createdAt", .str (pyS "2023-10-01T12:00:00Z")),
   (pyS "source", .str (pyS "bluesky"))]

/-- The row inserted for bodyC10a at store time 0. -/
def rowC10a : PostRow :=
  ⟨pyS "123",
   analyze_sentiment polC (preprocess_text tokC stopC lemC (pyS "123")),
   .str (pyS "2023-10-01T12:00:00Z"), .str (pyS "bluesky"), 0⟩

/-- The row inserted for bodyC10b at store time 60. -/
def rowC10b : PostRow :=
  ⟨pyS "456",
   analyze_sentiment polC (preprocess_text tokC stopC lemC (pyS "456")),
   .str (pyS "2023-10-01T12:00:00Z"), .str (pyS "bluesky"), 60⟩

/-- C10: evaluating the Processor on the failing input. Both texts
normalize to the empty string; the first is classified neutral (the
scorer gives empty input 0) and persisted. But the second, delivered
60 seconds later, is persisted as well: the dedup check queries
content = "" while the stored row holds the raw text "123", so the
earlier message does not suppress the later one as the claim states. -/
theorem C10_empty_normalization_not_suppressed :
    preprocess_text tokC stopC lemC (pyS "123") = pyS "" ∧
    preprocess_text tokC stopC lemC (pyS "456") = pyS "" ∧
    polC (pyS "") = 0 ∧
    rowC10a.sentiment = SENTIMENT_NEUTRAL ∧
    process_queue_message (constLoads (.obj fieldsC10a)) badWordsC tokC
      stopC lemC polC db0 bodyC10a = .ok ⟨[rowC10a], 0, false, false⟩ ∧
    check_if_text_exists ⟨[rowC10a], 60, false, false⟩ (pyS "") =
      .ok false ∧
    process_queue_message (constLoads (.obj fieldsC10b)) badWordsC tokC
      stopC lemC polC ⟨[rowC10a], 60, false, false⟩ bodyC10b =
      .ok ⟨[rowC10a, rowC10b], 60, false, false⟩ :=
  ⟨rfl, rfl, rfl, polC_neutral _, rfl, rfl, rfl⟩

/- ===== C2: exception isolation of the consumer ===== -/

/-- A schema-valid payload whose text value is null. -/
def fieldsC2x : JObj :=
  [(pyS "text", .null),
   (pyS "createdAt", .str (pyS "2023-10-01T12:00:00Z")),
   (pyS "source", .str (pyS "bluesky"))]

/-- The body whose json.loads value is fieldsC2x. -/
def bodyC2x : PyStr := pyS
  "\x7b\"text\": null, \"createdAt\": \"2023-10-01T12:00:00Z\", \"source\": \"bluesky\"\x7d"

/-- C2 counterexample: a wrong-typed payload (text: null) passes the
schema check and then makes re.search raise TypeError, which
process_queue_message does not catch: the exception propagates,
contradicting the claim that no queue message body can let an
exception escape. -/
theorem C2_exception_escapes_counterexample :
    process_queue_message (constLoads (.obj fieldsC2x)) badWordsC tokC
      stopC lemC polC db0 bodyC2x = .error .typeError := rfl

/-- C2 (amended): for every queue message body whose parse (when it is
a schema-valid mapping) carries a string text value, and when the
dedup-check SELECT does not fail, processing either persists exactly
one row or performs no storage mutation, and no exception escapes
process_queue_message. (The unamended claim fails in two ways: a
non-string text raises an uncaught TypeError, and a store failure
inside check_if_text_exists, unlike one at the INSERT, is not caught.) -/
theorem C2_single_message_isolation_amended
    (jsonLoads : PyStr → Except Unit JValue) (badWords : List PyStr)
    (tokenize : PyStr → List PyStr) (isStop : PyStr → Bool)
    (lemmatize : PyStr → PyStr) (polarity : PyStr → ℚ)
    (db : DB) (message : PyStr)
    (hq : db.failQuery = false)
    (htext : ∀ fields v, jsonLoads (pyStrip message) = .ok (.obj fields) →
      jLookup fields (pyS "text") = some v → ∃ s, v = .str s) :
    process_queue_message jsonLoads badWords tokenize isStop lemmatize
      polarity db message = .ok db ∨
    ∃ r : PostRow, process_queue_message jsonLoads badWords tokenize
      isStop lemmatize polarity db message =
      .ok { db with rows := db.rows ++ [r] } := by
  by_cases he : (pyStrip message).isEmpty
  · left; simp [process_queue_message, he]
  · cases hp : jsonLoads (pyStrip message) with
    | error u => left; simp [process_queue_message, he, hp]
    | ok record =>
      cases record with
      | obj fields =>
        rcases ht : jLookup fields (pyS "text") with _ | v
        · left; simp [process_queue_message, he, hp, ht]
        · rcases hc : jLookup fields (pyS "createdAt") with _ | c
          · left; simp [process_queue_message, he, hp, ht, hc]
          · rcases hs : jLookup fields (pyS "source") with _ | src
            · left; simp [process_queue_message, he, hp, ht, hc, hs]
            · obtain ⟨s, rfl⟩ := htext fields v hp ht
              by_cases hbw : hasBadWord badWords s
              · left
                simp [process_queue_message, he, hp, ht, hc, hs, hbw]
              · cases hex : db.rows.any (fun r =>
                    decide (r.content =
                      preprocess_text tokenize isStop lemmatize s) &&
                    decide (db.now < r.inserted_at + DEDUP_WINDOW)) with
                | true =>
                  left
                  simp [process_queue_message, he, hp, ht, hc, hs, hbw,
                    check_if_text_exists, hq, hex]
                | false =>
                  by_cases hins : db.failInsert
                  · left
                    simp [process_queue_message, he, hp, ht, hc, hs, hbw,
                      check_if_text_exists, hq, hex, hins]
                  · right
                    refine ⟨⟨s, analyze_sentiment polarity
                      (preprocess_text tokenize isStop lemmatize s),
                      c, src, db.now⟩, ?_⟩
                    simp [process_queue_message, he, hp, ht, hc, hs, hbw,
                      check_if_text_exists, hq, hex, hins]
      | null => left; simp [process_queue_message, he, hp]
      | bool b => left; simp [process_queue_message, he, hp]
      | num q => left; simp [process_queue_message, he, hp]
      | str s => left; simp [process_queue_message, he, hp]
      | arr l => left; simp [process_queue_message, he, hp]

/-- The well-typed message of the amended-C2 witness. -/
def fieldsC2w : JObj :=
  [(pyS "text", .str (pyS "Another post")),
   (pyS "createdAt", .str (pyS "2023-10-01T12:00:00Z")),
   (pyS "source", .str (pyS "bluesky"))]

/-- The body whose json.loads value is fieldsC2w. -/
def bodyC2w : PyStr := pyS
  "\x7b\"text\": \"Another post\", \"createdAt\": \"2023-10-01T12:00:00Z\", \"source\": \"bluesky\"\x7d"

/-- C2 witness: on a well-typed body with a healthy store, processing
returns normally, with the store unchanged or exactly one row
appended. -/
theorem C2_single_message_isolation_amended_witness :
    process_queue_message (constLoads (.obj fieldsC2w)) badWordsC tokC
      stopC lemC polC db0 bodyC2w = .ok db0 ∨
    ∃ r : PostRow, process_queue_message (constLoads (.obj fieldsC2w))
      badWordsC tokC stopC lemC polC db0 bodyC2w =
      .ok { db0 with rows := db0.rows ++ [r] } :=
  C2_single_message_isolation_amended (constLoads (.obj fieldsC2w))
    badWordsC tokC stopC lemC polC db0 bodyC2w rfl
    (by
      intro fields v hp ht
      simp only [constLoads] at hp
      injection hp with h1
      injection h1 with h2
      subst h2
      rw [show jLookup fieldsC2w (pyS "text") =
        some (.str (pyS "Another post")) from rfl] at ht
      injection ht with h3
      exact ⟨pyS "Another post", h3.symm⟩)

/- ===== C9: the schema check validates key presence only ===== -/

/-- A schema-valid payload whose text value is the number 5. -/
def fieldsC9x : JObj :=
  [(pyS "text", .num 5),
   (pyS "createdAt", .str (pyS "2023-10-01T12:00:00Z")),
   (pyS "source", .str (pyS "bluesky"))]

/-- The body whose json.loads value is fieldsC9x. -/
def bodyC9x : PyStr := pyS
  "\x7b\"text\": 5, \"createdAt\": \"2023-10-01T12:00:00Z\", \"source\": \"bluesky\"\x7d"

/-- C9 counterexample: with text = 5 the schema check passes (all three
keys are present), but the pipeline does not proceed past moderation:
re.search raises an uncaught TypeError there, so preprocessing is never
reached, contradicting the claim that processing proceeds to
preprocessing with the non-string value. -/
theorem C9_nonstring_text_counterexample :
    (jLookup fieldsC9x (pyS "text")).isSome = true ∧
    (jLookup fieldsC9x (pyS "createdAt")).isSome = true ∧
    (jLookup fieldsC9x (pyS "source")).isSome = true ∧
    check_for_bad_words badWordsC (.num 5) = .error .typeError ∧
    process_queue_message (constLoads (.obj fieldsC9x)) badWordsC tokC
      stopC lemC polC db0 bodyC9x = .error .typeError :=
  ⟨rfl, rfl, rfl, rfl, rfl⟩

/-- C9 (amended): the schema check validates key presence only: a
mapping with the three keys passes even when the text value is not a
string; the pipeline then proceeds to moderation with that value, where
re.search raises an uncaught TypeError, so preprocessing is not
reached and the exception escapes. -/
theorem C9_schema_check_presence_only_amended
    (jsonLoads : PyStr → Except Unit JValue) (badWords : List PyStr)
    (tokenize : PyStr → List PyStr) (isStop : PyStr → Bool)
    (lemmatize : PyStr → PyStr) (polarity : PyStr → ℚ)
    (db : DB) (message : PyStr) (fields : JObj) (v c src : JValue)
    (hne : (pyStrip message).isEmpty = false)
    (hparse : jsonLoads (pyStrip message) = .ok (.obj fields))
    (ht : jLookup fields (pyS "text") = some v)
    (hc : jLookup fields (pyS "createdAt") = some c)
    (hs : jLookup fields (pyS "source") = some src)
    (hnot : ∀ s, v ≠ .str s) :
    check_for_bad_words badWords v = .error .typeError ∧
    process_queue_message jsonLoads badWords tokenize isStop lemmatize
      polarity db message = .error .typeError := by
  cases v with
  | str s => exact absurd rfl (hnot s)
  | null =>
    exact ⟨rfl, by simp [process_queue_message, hne, hparse, ht, hc, hs]⟩
  | bool b =>
    exact ⟨rfl, by simp [process_queue_message, hne, hparse, ht, hc, hs]⟩
  | num q =>
    exact ⟨rfl, by simp [process_queue_message, hne, hparse, ht, hc, hs]⟩
  | arr l =>
    exact ⟨rfl, by simp [process_queue_message, hne, hparse, ht, hc, hs]⟩
  | obj o =>
    exact ⟨rfl, by simp [process_queue_message, hne, hparse, ht, hc, hs]⟩

/-- A schema-valid payload whose text value is the boolean true. -/
def fieldsC9w : JObj :=
  [(pyS "text", .bool true),
   (pyS "createdAt", .str (pyS "2023-10-01T12:00:00Z")),
   (pyS "source", .str (pyS "bluesky"))]

/-- The body whose json.loads value is fieldsC9w. -/
def bodyC9w : PyStr := pyS
  "\x7b\"text\": true, \"createdAt\": \"2023-10-01T12:00:00Z\", \"source\": \"bluesky\"\x7d"

/-- C9 witness: with text = true the moderation step raises TypeError
and the exception escapes processing. -/
theorem C9_schema_check_presence_only_amended_witness :
    check_for_bad_words badWordsC (.bool true) = .error .typeError ∧
    process_queue_message (constLoads (.obj fieldsC9w)) badWordsC tokC
      stopC lemC polC db0 bodyC9w = .error .typeError :=
  C9_schema_check_presence_only_amended (constLoads (.obj fieldsC9w))
    badWordsC tokC stopC lemC polC db0 bodyC9w fieldsC9w (.bool true)
    (.str (pyS "2023-10-01T12:00:00Z")) (.str (pyS "bluesky"))
    rfl rfl rfl rfl rfl (fun _ h => JValue.noConfusion h)

/- ===== C5: idempotence of normalization ===== -/

/-- Mapping a function that fixes every member of a list is the
identity on that list. -/
theorem map_eq_self_of_mem {α : Type} (f : α → α) :
    ∀ (l : List α), (∀ u ∈ l, f u = u) → l.map f = l
  | [], _ => rfl
  | a :: tl, h => by
    rw [List.map_cons, h a (by simp),
      map_eq_self_of_mem f tl (fun u hu => h u (by simp [hu]))]

/-- Intercalating a singleton list is its only element. -/
theorem intercalate_singleton_list {α : Type} (sep t : List α) :
    List.intercalate sep [t] = t := by
  simp [List.intercalate]

/-- Unfolding intercalate over a two-or-more element list. -/
theorem intercalate_cons_cons_list {α : Type} (sep t u : List α)
    (tl : List (List α)) :
    List.intercalate sep (t :: u :: tl) =
      t ++ sep ++ List.intercalate sep (u :: tl) := by
  simp [List.intercalate, List.intersperse_cons_cons]

/-- pyLower distributes over append. -/
theorem pyLower_append (a b : PyStr) :
    pyLower (a ++ b) = pyLower a ++ pyLower b := by
  simp [pyLower]

/-- pyLower fixes a space-join of strings it fixes. -/
theorem pyLower_intercalate :
    ∀ (l : List PyStr), (∀ t ∈ l, pyLower t = t) →
    pyLower (List.intercalate (pyS " ") l) = List.intercalate (pyS " ") l
  | [], _ => rfl
  | [t], h => by
    rw [intercalate_singleton_list]
    exact h t (by simp)
  | t :: u :: tl, h => by
    rw [intercalate_cons_cons_list, pyLower_append, pyLower_append,
      h t (by simp),
      pyLower_intercalate (u :: tl) (fun a ha => h a (by simp [ha])),
      show pyLower (pyS " ") = pyS " " from rfl]

/-- What pyIsAlpha gives: nonempty, and every character alphabetic. -/
theorem pyIsAlpha_spec (t : PyStr) (h : pyIsAlpha t = true) :
    t ≠ [] ∧ ∀ c ∈ t, c.isAlpha = true := by
  unfold pyIsAlpha at h
  rw [Bool.and_eq_true] at h
  refine ⟨?_, ?_⟩
  · intro he
    subst he
    simp at h
  · intro c hc
    exact List.all_eq_true.mp h.2 c hc

/-- An alphabetic character is not whitespace. -/
theorem isAlpha_not_ws (c : Char) (h : c.isAlpha = true) :
    c.isWhitespace = false := by
  cases hw : c.isWhitespace
  · rfl
  · exfalso
    have hda : ((c = ' ' ∨ c = '\t') ∨ c = '\x0d') ∨ c = '\n' := by
      simpa [Char.isWhitespace] using hw
    rcases hda with ((h1 | h1) | h1) | h1 <;> subst h1 <;>
      exact absurd h (by decide)

/-- pyStrip is the identity on a string whose first and last characters
are not whitespace. -/
theorem pyStrip_eq_self (c d : Char) (mid init : PyStr) (l : PyStr)
    (h1 : l = c :: mid) (h2 : l = init ++ [d])
    (hc : c.isWhitespace = false) (hd : d.isWhitespace = false) :
    pyStrip l = l := by
  subst h1
  unfold pyStrip
  rw [List.dropWhile_cons, if_neg (by simp [hc])]
  rw [h2, List.reverse_append]
  simp only [List.reverse_singleton, List.singleton_append]
  rw [List.dropWhile_cons, if_neg (by simp [hd])]
  rw [List.reverse_cons, List.reverse_reverse]

/-- A nonempty space-join of alphabetic tokens starts and ends with an
alphabetic character. -/
theorem intercalate_alpha_ends :
    ∀ (l : List PyStr), l ≠ [] → (∀ t ∈ l, pyIsAlpha t = true) →
    (∃ c rest, List.intercalate (pyS " ") l = c :: rest ∧
      c.isAlpha = true) ∧
    (∃ d init, List.intercalate (pyS " ") l = init ++ [d] ∧
      d.isAlpha = true)
  | [], hne, _ => absurd rfl hne
  | [t], _, h => by
    obtain ⟨hne, hall⟩ := pyIsAlpha_spec t (h t (by simp))
    rw [intercalate_singleton_list]
    constructor
    · cases t with
      | nil => exact absurd rfl hne
      | cons a t2 => exact ⟨a, t2, rfl, hall a (by simp)⟩
    · exact ⟨t.getLast hne, t.dropLast,
        (List.dropLast_append_getLast hne).symm,
        hall _ (List.getLast_mem hne)⟩
  | t :: u :: tl, _, h => by
    obtain ⟨hne, hall⟩ := pyIsAlpha_spec t (h t (by simp))
    obtain ⟨-, ⟨d, init, hlast, hda⟩⟩ :=
      intercalate_alpha_ends (u :: tl) (by simp)
        (fun a ha => h a (by simp [ha]))
    rw [intercalate_cons_cons_list]
    constructor
    · cases t with
      | nil => exact absurd rfl hne
      | cons a t2 =>
        exact ⟨a, t2 ++ pyS " " ++ List.intercalate (pyS " ") (u :: tl),
          rfl, hall a (by simp)⟩
    · refine ⟨d, t ++ pyS " " ++ init, ?_, hda⟩
      rw [hlast, ← List.append_assoc]

/-- The witness tokenizer inverts the space-join of alphabetic,
lower-case tokens fed through strip and lower. -/
theorem tokC_retokenize (l : List PyStr)
    (h : ∀ t ∈ l, pyIsAlpha t = true ∧ pyLower t = t) :
    tokC (pyLower (pyStrip (List.intercalate (pyS " ") l))) = l := by
  cases l with
  | nil => rfl
  | cons t ts =>
    have halpha : ∀ u ∈ t :: ts, pyIsAlpha u = true :=
      fun u hu => (h u hu).1
    have hlow : ∀ u ∈ t :: ts, pyLower u = u := fun u hu => (h u hu).2
    have hstrip : pyStrip (List.intercalate (pyS " ") (t :: ts)) =
        List.intercalate (pyS " ") (t :: ts) := by
      obtain ⟨⟨c, rest, hfirst, hca⟩, ⟨d, init, hlast, hda⟩⟩ :=
        intercalate_alpha_ends (t :: ts) (by simp) halpha
      exact pyStrip_eq_self c d rest init _ hfirst hlast
        (isAlpha_not_ws c hca) (isAlpha_not_ws d hda)
    rw [hstrip, pyLower_intercalate (t :: ts) hlow]
    unfold tokC
    rw [show pyS " " = [' '] from rfl]
    rw [List.splitOn_intercalate (t :: ts) ' '
      (fun u hu hsp =>
        absurd ((pyIsAlpha_spec u (halpha u hu)).2 ' ' hsp) (by decide))
      (by simp)]
    rw [List.filter_eq_self.mpr ?keep]
    case keep =>
      intro u hu
      rw [Bool.and_eq_true]
      obtain ⟨hne, -⟩ := pyIsAlpha_spec u (halpha u hu)
      refine ⟨?_, decide_eq_true (hlow u hu)⟩
      cases u with
      | nil => exact absurd rfl hne
      | cons a t2 => rfl

/-- The witness tokenizer returns only lower-case-stable tokens. -/
theorem tokC_lower_stable : ∀ s t, t ∈ tokC (pyLower s) → pyLower t = t := by
  intro s t ht
  unfold tokC at ht
  rw [List.mem_filter] at ht
  have h2 := ht.2
  rw [Bool.and_eq_true] at h2
  exact of_decide_eq_true h2.2

/-- The identity lemmatizer with the witness stopword predicate
satisfies the stability assumptions. -/
theorem lemC_stopC_stable : ∀ t, pyIsAlpha t = true → stopC t = false →
    pyLower t = t →
    pyIsAlpha (lemC t) = true ∧ stopC (lemC t) = false ∧
    pyLower (lemC t) = lemC t ∧ lemC (lemC t) = lemC t :=
  fun _ h1 h2 h3 => ⟨h1, h2, h3, rfl⟩

/-- C5: normalization is idempotent. The three hypotheses are the
stability assumptions the spec itself gives for the external NLTK
capabilities: the tokenizer emits lower-case-stable tokens on
lower-cased input, surviving lemmas are alphabetic lower-case
non-stopwords and lemmatization fixes them, and tokenizing the
space-join of such tokens (after the strip and lower of a second run)
returns exactly those tokens. Under these, a second run of
preprocess_text on its own output changes nothing. -/
theorem C5_preprocess_idempotent
    (tokenize : PyStr → List PyStr) (isStop : PyStr → Bool)
    (lemmatize : PyStr → PyStr)
    (hTokLower : ∀ s t, t ∈ tokenize (pyLower s) → pyLower t = t)
    (hStable : ∀ t, pyIsAlpha t = true → isStop t = false →
      pyLower t = t →
      pyIsAlpha (lemmatize t) = true ∧ isStop (lemmatize t) = false ∧
      pyLower (lemmatize t) = lemmatize t ∧
      lemmatize (lemmatize t) = lemmatize t)
    (hTok : ∀ l : List PyStr,
      (∀ t ∈ l, pyIsAlpha t = true ∧ pyLower t = t) →
      tokenize (pyLower (pyStrip (List.intercalate (pyS " ") l))) = l)
    (x : PyStr) :
    preprocess_text tokenize isStop lemmatize
      (preprocess_text tokenize isStop lemmatize x) =
    preprocess_text tokenize isStop lemmatize x := by
  have hL : ∀ u ∈ ((tokenize (pyLower (pyStrip x))).filter
      (fun tok => !isStop tok && pyIsAlpha tok)).map lemmatize,
      pyIsAlpha u = true ∧ isStop u = false ∧ pyLower u = u ∧
        lemmatize u = u := by
    intro u hu
    rw [List.mem_map] at hu
    obtain ⟨t, htf, rfl⟩ := hu
    rw [List.mem_filter] at htf
    obtain ⟨htok, hkeep⟩ := htf
    rw [Bool.and_eq_true, Bool.not_eq_true'] at hkeep
    exact hStable t hkeep.2 hkeep.1 (hTokLower (pyStrip x) t htok)
  show preprocess_text tokenize isStop lemmatize
      (List.intercalate (pyS " ")
        (((tokenize (pyLower (pyStrip x))).filter
          (fun tok => !isStop tok && pyIsAlpha tok)).map lemmatize)) =
    List.intercalate (pyS " ")
      (((tokenize (pyLower (pyStrip x))).filter
        (fun tok => !isStop tok && pyIsAlpha tok)).map lemmatize)
  generalize hLdef : ((tokenize (pyLower (pyStrip x))).filter
      (fun tok => !isStop tok && pyIsAlpha tok)).map lemmatize = L at hL
  show List.intercalate (pyS " ")
      (((tokenize (pyLower (pyStrip (List.intercalate (pyS " ") L)))).filter
        (fun tok => !isStop tok && pyIsAlpha tok)).map lemmatize) =
    List.intercalate (pyS " ") L
  rw [hTok L (fun u hu => ⟨(hL u hu).1, (hL u hu).2.2.1⟩)]
  rw [List.filter_eq_self.mpr (fun u hu => by
    rw [Bool.and_eq_true, Bool.not_eq_true']
    exact ⟨(hL u hu).2.1, (hL u hu).1⟩)]
  rw [map_eq_self_of_mem lemmatize L (fun u hu => (hL u hu).2.2.2)]

/-- C5 witness: idempotence at a concrete input, with the concrete
tokenizer, stopword predicate and lemmatizer discharging the stability
assumptions. -/
theorem C5_preprocess_idempotent_witness :
    preprocess_text tokC stopC lemC
      (preprocess_text tokC stopC lemC (pyS "  This is a TEST  post  ")) =
    preprocess_text tokC stopC lemC (pyS "  This is a TEST  post  ") :=
  C5_preprocess_idempotent tokC stopC lemC tokC_lower_stable
    lemC_stopC_stable tokC_retokenize (pyS "  This is a TEST  post  ")
